import Mathlib

/-!
Verification development for the HolisticConnect booking application.

This file gives a shallow embedding of the Firestore repository layer
(UserRepository, PractitionerRepository, AppointmentRepository), of the
firebase configuration validator, and of the auth hooks (useSignUp,
useSignIn, useSignInWithGoogle, AuthContext), and proves properties of
the embedded operations.

Modelling conventions:
  - a Firestore collection is a list of documents; the document key is the
    uid field (users, practitioners) or the id field (appointments), and
    keys are unique in any store the theorems quantify over where needed;
  - server timestamps are natural numbers;
  - a fallible operation returns a pair of an Except result and the
    collection after the call, so that non-mutation on failure is a
    provable statement;
  - external failures of backing writes (a setDoc that throws) are
    injected through explicit Bool oracles, a failed write leaves the
    collection unchanged;
  - JavaScript truthiness tests on strings and numbers are modelled
    exactly: an empty string and the number zero are falsy.
-/

namespace HolisticConnect

/-- Role of an account, from types/auth.ts (UserRole). -/
inductive UserRole where
  | client
  | practitioner
deriving DecidableEq, Repr

/-- Appointment status, from types/firestore.ts (AppointmentStatus). -/
inductive AppointmentStatus where
  | pending
  | confirmed
  | cancelled
  | completed
  | noShow
deriving DecidableEq, Repr

/-- Payment status, from types/firestore.ts (PaymentStatus). -/
inductive PaymentStatus where
  | pending
  | paid
  | refunded
deriving DecidableEq, Repr

/-- Actor recorded by a cancellation, the TS union of the two string
literals client and practitioner. -/
inductive CancelActor where
  | client
  | practitioner
deriving DecidableEq, Repr

/-- Toast notification emitted through the sonner toast API. -/
inductive Toast where
  | success (msg : String)
  | error (msg : String)
  | warning (msg : String)
deriving DecidableEq, Repr

/-- User document, from types/firestore.ts (UserDocument). A TS field of
type T or null, and an optional field, are both an Option. -/
structure UserDocument where
  uid : String
  email : String
  role : UserRole
  displayName : Option String
  photoURL : Option String
  createdAt : Nat
  updatedAt : Nat
  emailVerified : Bool
  phoneNumber : Option String
  bio : Option String
deriving DecidableEq, Repr

/-- Input of createUserProfile, from types/firestore.ts
(CreateUserProfileInput): every optional field is an Option. -/
structure CreateUserProfileInput where
  uid : String
  email : String
  role : UserRole
  displayName : Option String := none
  photoURL : Option String := none
  emailVerified : Option Bool := none
  phoneNumber : Option String := none
  bio : Option String := none
deriving DecidableEq, Repr

/-- Lookup of the document stored at key uid in the users collection. -/
def findUserDoc (users : List UserDocument) (uid : String) : Option UserDocument :=
  users.find? (fun d => d.uid == uid)

/-- The user document UserRepository.createUserProfile builds from its
input: absent optional inputs fall back exactly as the source does
(displayName and photoURL and phoneNumber and bio to null, emailVerified
to false), and both timestamps are the server clock. -/
def mkUserDocument (input : CreateUserProfileInput) (now : Nat) : UserDocument :=
  { uid := input.uid
    email := input.email
    role := input.role
    displayName := input.displayName
    photoURL := input.photoURL
    createdAt := now
    updatedAt := now
    emailVerified := input.emailVerified.getD false
    phoneNumber := input.phoneNumber
    bio := input.bio }

/-- Embedding of UserRepository.createUserProfile: reject when a document
already exists at the key, otherwise store the built document. The
setDocFails oracle injects an external failure of the backing write; the
collection is unchanged on every failing path. -/
def createUserProfile (users : List UserDocument) (input : CreateUserProfileInput)
    (now : Nat) (setDocFails : Bool) :
    Except String UserDocument × List UserDocument :=
  match findUserDoc users input.uid with
  | some _ => (.error ("User profile already exists for UID: " ++ input.uid), users)
  | none =>
    if setDocFails then
      (.error "setDoc failed", users)
    else
      let userData := mkUserDocument input now
      (.ok userData, userData :: users)

/-- Embedding of UserRepository.getUser: absent documents give null, not
an error. -/
def getUser (users : List UserDocument) (uid : String) : Option UserDocument :=
  findUserDoc users uid

/-- Embedding of UserRepository.userExists. -/
def userExists (users : List UserDocument) (uid : String) : Bool :=
  (findUserDoc users uid).isSome

/-- Practitioner pricing, two amounts in cents plus a currency code. -/
structure Pricing where
  initialConsultation : Nat
  followUpSession : Nat
  currency : String
deriving DecidableEq, Repr

/-- Working hours of one weekday; the source stores the start and end
strings of the day under the keys start and end. -/
structure DayWorkingHours where
  startHour : String
  endHour : String
  enabled : Bool
deriving DecidableEq, Repr

/-- Per-weekday working hours map. -/
structure WorkingHours where
  monday : DayWorkingHours
  tuesday : DayWorkingHours
  wednesday : DayWorkingHours
  thursday : DayWorkingHours
  friday : DayWorkingHours
  saturday : DayWorkingHours
  sunday : DayWorkingHours
deriving DecidableEq, Repr

/-- Availability rules: timezone plus working hours. -/
structure AvailabilityRules where
  timezone : String
  workingHours : WorkingHours
deriving DecidableEq, Repr

/-- Practitioner document, from types/firestore.ts
(PractitionerDocument). -/
structure PractitionerDocument where
  uid : String
  email : String
  displayName : String
  photoURL : Option String
  bio : String
  specialties : List String
  pricing : Pricing
  availabilityRules : AvailabilityRules
  sessionDuration : Nat
  createdAt : Nat
  updatedAt : Nat
  isActive : Bool
deriving DecidableEq, Repr

/-- Input of createPractitionerProfile, from types/firestore.ts
(CreatePractitionerProfileInput). -/
structure CreatePractitionerProfileInput where
  uid : String
  email : String
  displayName : String
  photoURL : Option String := none
  bio : Option String := none
  specialties : Option (List String) := none
  pricing : Option Pricing := none
  availabilityRules : Option AvailabilityRules := none
  sessionDuration : Option Nat := none
deriving DecidableEq, Repr

/-- Default pricing seeded by createPractitionerProfile: 100 dollars and
80 dollars in cents, USD. -/
def defaultPricing : Pricing :=
  { initialConsultation := 10000, followUpSession := 8000, currency := "USD" }

/-- Default availability seeded by createPractitionerProfile: New York
timezone, 09:00 to 17:00, Monday through Friday enabled. -/
def defaultAvailabilityRules : AvailabilityRules :=
  let onDay : DayWorkingHours := { startHour := "09:00", endHour := "17:00", enabled := true }
  let offDay : DayWorkingHours := { startHour := "09:00", endHour := "17:00", enabled := false }
  { timezone := "America/New_York"
    workingHours :=
      { monday := onDay, tuesday := onDay, wednesday := onDay, thursday := onDay
        friday := onDay, saturday := offDay, sunday := offDay } }

/-- Lookup of the document stored at key uid in the practitioners
collection. -/
def findPractitionerDoc (practitioners : List PractitionerDocument) (uid : String) :
    Option PractitionerDocument :=
  practitioners.find? (fun d => d.uid == uid)

/-- The practitioner document createPractitionerProfile builds from its
input, with the default bio, pricing, availability, sixty minute session
duration and active flag of the source. -/
def mkPractitionerDocument (input : CreatePractitionerProfileInput) (now : Nat) :
    PractitionerDocument :=
  { uid := input.uid
    email := input.email
    displayName := input.displayName
    photoURL := input.photoURL
    bio := input.bio.getD "No bio available."
    specialties := input.specialties.getD []
    pricing := input.pricing.getD defaultPricing
    availabilityRules := input.availabilityRules.getD defaultAvailabilityRules
    sessionDuration := input.sessionDuration.getD 60
    createdAt := now
    updatedAt := now
    isActive := true }

/-- Embedding of PractitionerRepository.createPractitionerProfile. -/
def createPractitionerProfile (practitioners : List PractitionerDocument)
    (input : CreatePractitionerProfileInput) (now : Nat) (setDocFails : Bool) :
    Except String PractitionerDocument × List PractitionerDocument :=
  match findPractitionerDoc practitioners input.uid with
  | some _ =>
    (.error ("Practitioner profile already exists for UID: " ++ input.uid), practitioners)
  | none =>
    if setDocFails then
      (.error "setDoc failed", practitioners)
    else
      let practitionerData := mkPractitionerDocument input now
      (.ok practitionerData, practitionerData :: practitioners)

/-- Embedding of PractitionerRepository.practitionerExists. -/
def practitionerExists (practitioners : List PractitionerDocument) (uid : String) : Bool :=
  (findPractitionerDoc practitioners uid).isSome

/-- Appointment document, from types/firestore.ts (AppointmentDocument).
A TS field that may be absent or null is an Option with none for both. -/
structure AppointmentDocument where
  id : String
  clientId : String
  practitionerId : String
  startTime : Nat
  endTime : Nat
  status : AppointmentStatus
  createdAt : Nat
  updatedAt : Nat
  cancelledAt : Option Nat := none
  cancelledBy : Option CancelActor := none
  notes : Option String := none
  practitionerNotes : Option String := none
  reminderSent : Option Bool := none
  reminderSentAt : Option Nat := none
  intakeFormCompleted : Option Bool := none
  intakeFormId : Option String := none
  sessionId : Option String := none
  paymentStatus : Option PaymentStatus := none
  paymentIntentId : Option String := none
deriving DecidableEq, Repr

/-- Partial update of an appointment, from types/firestore.ts
(UpdateAppointmentInput): the outer Option is field presence in the
update object, the inner Option is the nullable value itself. -/
structure UpdateAppointmentInput where
  status : Option AppointmentStatus := none
  cancelledAt : Option (Option Nat) := none
  cancelledBy : Option (Option CancelActor) := none
  notes : Option (Option String) := none
  practitionerNotes : Option (Option String) := none
  reminderSent : Option Bool := none
  reminderSentAt : Option (Option Nat) := none
  intakeFormCompleted : Option Bool := none
  intakeFormId : Option (Option String) := none
  sessionId : Option (Option String) := none
  paymentStatus : Option (Option PaymentStatus) := none
  paymentIntentId : Option (Option String) := none
deriving DecidableEq, Repr

/-- Lookup of the document stored at key id in the appointments
collection. -/
def findAppointmentDoc (appointments : List AppointmentDocument) (id : String) :
    Option AppointmentDocument :=
  appointments.find? (fun a => a.id == id)

/-- The merge updateDoc performs: every field present in the update
object replaces the stored field, and updatedAt is stamped from the
server clock. -/
def applyAppointmentUpdate (d : AppointmentDocument) (input : UpdateAppointmentInput)
    (now : Nat) : AppointmentDocument :=
  { d with
    status := input.status.getD d.status
    cancelledAt := input.cancelledAt.getD d.cancelledAt
    cancelledBy := input.cancelledBy.getD d.cancelledBy
    notes := input.notes.getD d.notes
    practitionerNotes := input.practitionerNotes.getD d.practitionerNotes
    reminderSent := input.reminderSent.map some |>.getD d.reminderSent
    reminderSentAt := input.reminderSentAt.getD d.reminderSentAt
    intakeFormCompleted := input.intakeFormCompleted.map some |>.getD d.intakeFormCompleted
    intakeFormId := input.intakeFormId.getD d.intakeFormId
    sessionId := input.sessionId.getD d.sessionId
    paymentStatus := input.paymentStatus.getD d.paymentStatus
    paymentIntentId := input.paymentIntentId.getD d.paymentIntentId
    updatedAt := now }

/-- Embedding of AppointmentRepository.updateAppointment: error when the
target does not exist, otherwise merge the update into the stored
document. -/
def updateAppointment (appointments : List AppointmentDocument) (appointmentId : String)
    (input : UpdateAppointmentInput) (now : Nat) :
    Except String AppointmentDocument × List AppointmentDocument :=
  match findAppointmentDoc appointments appointmentId with
  | none => (.error ("Appointment not found: " ++ appointmentId), appointments)
  | some d =>
    let updated := applyAppointmentUpdate d input now
    (.ok updated, appointments.map (fun a => if a.id == appointmentId then updated else a))

/-- Embedding of AppointmentRepository.cancelAppointment, which the
source writes as one call to updateAppointment with a status update
object carrying the cancelled status, the server cancellation timestamp
and the cancelling actor. -/
def cancelAppointment (appointments : List AppointmentDocument) (appointmentId : String)
    (cancelledBy : CancelActor) (now : Nat) :
    Except String AppointmentDocument × List AppointmentDocument :=
  updateAppointment appointments appointmentId
    { status := some .cancelled
      cancelledAt := some (some now)
      cancelledBy := some (some cancelledBy) } now

/-- Filter and pagination options of listAppointments, from
IAppointmentRepository.ts (ListAppointmentsOptions). -/
structure ListAppointmentsOptions where
  practitionerId : Option String := none
  clientId : Option String := none
  status : Option AppointmentStatus := none
  startAfter : Option Nat := none
  startBefore : Option Nat := none
  limit : Option Nat := none
  startAfterDocId : Option String := none
deriving DecidableEq, Repr

/-- Conjunction of the where clauses listAppointments builds from its
options. Each clause is added only when the option is truthy in
JavaScript, so a present but empty practitionerId or clientId string adds
no clause. -/
def matchesAppointmentFilters (o : ListAppointmentsOptions) (a : AppointmentDocument) : Bool :=
  (match o.practitionerId with
   | none => true
   | some p => if p = "" then true else a.practitionerId == p) &&
  (match o.clientId with
   | none => true
   | some c => if c = "" then true else a.clientId == c) &&
  (match o.status with
   | none => true
   | some s => a.status == s) &&
  (match o.startAfter with
   | none => true
   | some t => t ≤ a.startTime) &&
  (match o.startBefore with
   | none => true
   | some t => a.startTime ≤ t)

/-- Query order of the appointments queries: ascending start time, ties
broken by the document key as Firestore breaks them with the implicit
name ordering. -/
def appointmentOrder (a b : AppointmentDocument) : Prop :=
  a.startTime < b.startTime ∨ (a.startTime = b.startTime ∧ a.id ≤ b.id)

instance : DecidableRel appointmentOrder := fun a b =>
  inferInstanceAs (Decidable (a.startTime < b.startTime ∨
    (a.startTime = b.startTime ∧ a.id ≤ b.id)))

instance : IsTotal AppointmentDocument appointmentOrder := by
  constructor
  intro a b
  unfold appointmentOrder
  rcases Nat.lt_trichotomy a.startTime b.startTime with h | h | h
  · exact Or.inl (Or.inl h)
  · rcases le_total a.id b.id with h2 | h2
    · exact Or.inl (Or.inr ⟨h, h2⟩)
    · exact Or.inr (Or.inr ⟨h.symm, h2⟩)
  · exact Or.inr (Or.inl h)

instance : IsTrans AppointmentDocument appointmentOrder := by
  constructor
  intro a b c hab hbc
  unfold appointmentOrder at *
  rcases hab with h1 | ⟨h1, h1id⟩
  · rcases hbc with h2 | ⟨h2, _⟩
    · exact Or.inl (h1.trans h2)
    · exact Or.inl (h2 ▸ h1)
  · rcases hbc with h2 | ⟨h2, h2id⟩
    · exact Or.inl (h1 ▸ h2)
    · exact Or.inr ⟨h1.trans h2, le_trans h1id h2id⟩

/-- Position strictly after the cursor document in the ascending
appointment order, the semantics of a startAfter cursor. -/
def appointmentAfter (cursor a : AppointmentDocument) : Prop :=
  cursor.startTime < a.startTime ∨ (cursor.startTime = a.startTime ∧ cursor.id < a.id)

instance : DecidableRel appointmentAfter := fun c a =>
  inferInstanceAs (Decidable (c.startTime < a.startTime ∨
    (c.startTime = a.startTime ∧ c.id < a.id)))

/-- Shared limit stage of every listing query: a truthy requested limit
caps the ordered results, a missing or zero limit falls back to the
default cap of the repository. -/
def capResults {α : Type} (limitOpt : Option Nat) (defaultCap : Nat) (l : List α) : List α :=
  match limitOpt with
  | some n => if n ≠ 0 then l.take n else l.take defaultCap
  | none => l.take defaultCap

/-- Pagination stage of listAppointments: when the cursor names a stored
document, keep only the ordered results strictly after it; a missing or
unknown cursor changes nothing. -/
def appointmentCursorPage (appointments : List AppointmentDocument)
    (cursorOpt : Option String) (sorted : List AppointmentDocument) :
    List AppointmentDocument :=
  match cursorOpt with
  | none => sorted
  | some cid =>
    match findAppointmentDoc appointments cid with
    | none => sorted
    | some cursor => sorted.filter (fun a => decide (appointmentAfter cursor a))

/-- Embedding of AppointmentRepository.listAppointments: filter, order
ascending by start time, resume after the cursor document when that
document exists, then cap at the requested limit when it is truthy and
at 100 otherwise. -/
def listAppointments (appointments : List AppointmentDocument)
    (o : ListAppointmentsOptions) : List AppointmentDocument :=
  let filtered := appointments.filter (matchesAppointmentFilters o)
  let sorted := filtered.insertionSort appointmentOrder
  let paged := appointmentCursorPage appointments o.startAfterDocId sorted
  capResults o.limit 100 paged

/-- One notification delivered to a realtime subscription: either a
query snapshot holding the matching documents or a subscription error. -/
inductive SnapshotEvent where
  | snapshot (appointments : List AppointmentDocument)
  | failure (errorMessage : String)
deriving DecidableEq, Repr

/-- Embedding of AppointmentRepository.subscribeToAppointments: the
payload the registered callback receives for one underlying
notification. The query pipeline repeats the filters, order and limit of
listAppointments and has no pagination cursor; a subscription error is
logged and the callback receives the empty list. -/
def subscribeToAppointments (o : ListAppointmentsOptions) (ev : SnapshotEvent) :
    List AppointmentDocument :=
  match ev with
  | .snapshot appointments =>
    let filtered := appointments.filter (matchesAppointmentFilters o)
    let sorted := filtered.insertionSort appointmentOrder
    capResults o.limit 100 sorted
  | .failure _ => []

/-- Callback invocations of one subscription over a sequence of
underlying notifications: exactly one invocation per notification. -/
def subscriptionCallbackTrace (o : ListAppointmentsOptions) (events : List SnapshotEvent) :
    List (List AppointmentDocument) :=
  events.map (subscribeToAppointments o)

/-- Filter and pagination options of listPractitioners, from
IPractitionerRepository.ts (ListPractitionersOptions). -/
structure ListPractitionersOptions where
  isActive : Option Bool := none
  specialty : Option String := none
  limit : Option Nat := none
  startAfter : Option String := none
deriving DecidableEq, Repr

/-- Conjunction of the where clauses listPractitioners builds: the
isActive clause is added whenever the option is present (the source
tests against undefined, not truthiness), the specialty clause is an
array-contains test added when the option is truthy. -/
def matchesPractitionerFilters (o : ListPractitionersOptions) (p : PractitionerDocument) : Bool :=
  (match o.isActive with
   | none => true
   | some b => p.isActive == b) &&
  (match o.specialty with
   | none => true
   | some s => if s = "" then true else p.specialties.contains s)

/-- Query order of listPractitioners: descending creation time, ties
broken by the document key descending as Firestore breaks them. -/
def practitionerOrder (a b : PractitionerDocument) : Prop :=
  b.createdAt < a.createdAt ∨ (a.createdAt = b.createdAt ∧ b.uid ≤ a.uid)

instance : DecidableRel practitionerOrder := fun a b =>
  inferInstanceAs (Decidable (b.createdAt < a.createdAt ∨
    (a.createdAt = b.createdAt ∧ b.uid ≤ a.uid)))

/-- Position strictly after the cursor document in the descending
practitioner order. -/
def practitionerAfter (cursor p : PractitionerDocument) : Prop :=
  p.createdAt < cursor.createdAt ∨ (p.createdAt = cursor.createdAt ∧ p.uid < cursor.uid)

instance : DecidableRel practitionerAfter := fun c p =>
  inferInstanceAs (Decidable (p.createdAt < c.createdAt ∨
    (p.createdAt = c.createdAt ∧ p.uid < c.uid)))

/-- Pagination stage of listPractitioners: when the cursor names a
stored document, keep only the ordered results strictly after it; a
missing or unknown cursor changes nothing. -/
def practitionerCursorPage (practitioners : List PractitionerDocument)
    (cursorOpt : Option String) (sorted : List PractitionerDocument) :
    List PractitionerDocument :=
  match cursorOpt with
  | none => sorted
  | some cid =>
    match findPractitionerDoc practitioners cid with
    | none => sorted
    | some cursor => sorted.filter (fun p => decide (practitionerAfter cursor p))

/-- Embedding of PractitionerRepository.listPractitioners: filter, order
descending by creation time, resume after the cursor document when that
document exists, then cap at the requested limit when it is truthy and
at 50 otherwise. -/
def listPractitioners (practitioners : List PractitionerDocument)
    (o : ListPractitionersOptions) : List PractitionerDocument :=
  let filtered := practitioners.filter (matchesPractitionerFilters o)
  let sorted := filtered.insertionSort practitionerOrder
  let paged := practitionerCursorPage practitioners o.startAfter sorted
  capResults o.limit 50 paged

/-- Error thrown by a firebase auth call: an optional error code and an
optional message, the shape the hooks destructure. -/
structure AuthError where
  code : Option String := none
  message : Option String := none
deriving DecidableEq, Repr

/-- Authenticated firebase user as the hooks read it after a successful
credential operation. -/
structure AuthUser where
  uid : String
  email : String
  displayName : Option String := none
  photoURL : Option String := none
  emailVerified : Bool := false
deriving DecidableEq, Repr

/-- JavaScript coercion value or null on an optional string: a present
empty string is falsy and becomes null. -/
def orNull (s : Option String) : Option String :=
  match s with
  | some v => if v = "" then none else some v
  | none => none

/-- Fallback chain of an error message field: used when truthy, the
generic message otherwise. -/
def messageOr (fallback : String) (m : Option String) : String :=
  match m with
  | some s => if s = "" then fallback else s
  | none => fallback

/-- Error vocabulary of useSignIn for a failed credential sign in, from
the chain of code tests in the source. -/
def signInErrorMessage (e : AuthError) : String :=
  if e.code = some "auth/invalid-credential" then "Invalid email or password."
  else if e.code = some "auth/user-not-found" then "No account found with this email."
  else if e.code = some "auth/wrong-password" then "Incorrect password."
  else if e.code = some "auth/too-many-requests" then "Too many failed attempts. Please try again later."
  else if e.code = some "auth/network-request-failed" then "Network error. Please check your connection."
  else messageOr "Failed to sign in. Please try again." e.message

/-- Error vocabulary of useSignUp for a failed account creation. -/
def signUpErrorMessage (e : AuthError) : String :=
  if e.code = some "auth/email-already-in-use" then "An account with this email already exists."
  else if e.code = some "auth/invalid-email" then "Invalid email address."
  else if e.code = some "auth/weak-password" then "Password is too weak. Please use a stronger password."
  else if e.code = some "auth/network-request-failed" then "Network error. Please check your connection."
  else messageOr "Failed to create account. Please try again." e.message

/-- Externally determined outcomes one signUp call runs against: the
credential creation result and the failure oracles of the backing
writes and of the verification email. -/
structure SignUpEnv where
  credential : Except AuthError AuthUser
  userSetDocFails : Bool := false
  practitionerSetDocFails : Bool := false
  verificationEmailFails : Bool := false

/-- Observable outcome of one signUp call: both collections after the
call, the toasts shown, the stored error, the loading flag at return and
the router pushes. -/
structure SignUpResult where
  users : List UserDocument
  practitioners : List PractitionerDocument
  toasts : List Toast
  error : Option String
  loading : Bool
  pushes : List String
deriving DecidableEq, Repr

/-- First segment of the email before the at sign, the fallback display
name useSignUp passes to the practitioner profile. -/
def emailLocalPart (email : String) : String :=
  (email.splitOn "@").headD ""

/-- Warning toast shown when the user profile write after sign up
fails. -/
def profileSetupWarning : Toast :=
  Toast.warning "Account created, but profile setup failed. Please complete your profile later."

/-- Warning toast shown when the practitioner profile write after sign
up fails. -/
def practitionerSetupWarning : Toast :=
  Toast.warning "Account created, but practitioner profile setup failed. Please complete your profile later."

/-- Tail of every signUp call whose credential creation succeeded: the
verification email toast (success text in both branches), no stored
error, loading back to false, redirect to the dashboard. -/
def finishSignUp (users : List UserDocument) (practitioners : List PractitionerDocument)
    (warnings : List Toast) (env : SignUpEnv) : SignUpResult :=
  let verifyToast :=
    if env.verificationEmailFails then Toast.success "Account created successfully!"
    else Toast.success "Account created! Please check your email to verify your account."
  { users := users
    practitioners := practitioners
    toasts := warnings ++ [verifyToast]
    error := none
    loading := false
    pushes := ["/dashboard"] }

/-- User profile input useSignUp builds for the repository: the auth
uid and email, the chosen role, the display name or null when empty,
the auth photo and verification flag. -/
def signUpProfileInput (u : AuthUser) (role : UserRole) (displayName : String) :
    CreateUserProfileInput :=
  { uid := u.uid
    email := u.email
    role := role
    displayName := if displayName = "" then none else some displayName
    photoURL := orNull u.photoURL
    emailVerified := some u.emailVerified }

/-- Practitioner profile input useSignUp builds when the role is
practitioner: the display name falls back to the local part of the
email when empty. -/
def signUpPractitionerInput (u : AuthUser) (displayName : String) :
    CreatePractitionerProfileInput :=
  { uid := u.uid
    email := u.email
    displayName := if displayName = "" then emailLocalPart u.email else displayName
    photoURL := orNull u.photoURL }

/-- Embedding of useSignUp.signUp: create the credential, then the user
profile (its failure downgraded to a warning), then for the practitioner
role the practitioner profile (its failure downgraded to a warning and
never rolling back the user document), then the verification email and
the redirect. A credential failure stores and toasts a mapped error and
performs no write and no redirect. -/
def signUp (users : List UserDocument) (practitioners : List PractitionerDocument)
    (env : SignUpEnv) (displayName : String) (role : UserRole) (now : Nat) : SignUpResult :=
  match env.credential with
  | .error e =>
    let m := signUpErrorMessage e
    { users := users
      practitioners := practitioners
      toasts := [Toast.error m]
      error := some m
      loading := false
      pushes := [] }
  | .ok u =>
    match createUserProfile users (signUpProfileInput u role displayName) now
        env.userSetDocFails with
    | (.error _, users') =>
      finishSignUp users' practitioners [profileSetupWarning] env
    | (.ok _, users') =>
      match role with
      | .practitioner =>
        match createPractitionerProfile practitioners
            (signUpPractitionerInput u displayName) now env.practitionerSetDocFails with
        | (.error _, practitioners') =>
          finishSignUp users' practitioners' [practitionerSetupWarning] env
        | (.ok _, practitioners') =>
          finishSignUp users' practitioners' [] env
      | .client =>
        finishSignUp users' practitioners [] env

/-- Observable outcome of one signIn call. -/
structure SignInResult where
  error : Option String
  loading : Bool
  toasts : List Toast
  pushes : List String
deriving DecidableEq, Repr

/-- Embedding of useSignIn.signIn: on success toast, then redirect to
the truthy redirect parameter, else to the dashboard, falling back to
the client dashboard when the role lookup throws; on failure store and
toast the mapped error, leave loading false and perform no redirect. -/
def signIn (attempt : Except AuthError AuthUser) (redirectParam : Option String)
    (userFetch : Except String (Option UserDocument)) : SignInResult :=
  match attempt with
  | .error e =>
    let m := signInErrorMessage e
    { error := some m
      loading := false
      toasts := [Toast.error m]
      pushes := [] }
  | .ok _ =>
    let target :=
      match redirectParam with
      | some r =>
        if r = "" then
          match userFetch with
          | .ok _ => "/dashboard"
          | .error _ => "/client/dashboard"
        else r
      | none =>
        match userFetch with
        | .ok _ => "/dashboard"
        | .error _ => "/client/dashboard"
    { error := none
      loading := false
      toasts := [Toast.success "Signed in successfully"]
      pushes := [target] }

/-- The user document useSignInWithGoogle creates in the background when
none exists: the client role by default, display name and photo coerced
through the or null pattern. -/
def googleUserProfileInput (u : AuthUser) : CreateUserProfileInput :=
  { uid := u.uid
    email := u.email
    role := .client
    displayName := orNull u.displayName
    photoURL := orNull u.photoURL
    emailVerified := some u.emailVerified }

/-- Embedding of the background profile branch of
useSignInWithGoogle.signInWithGoogle: when a user document exists for
the uid nothing is written, otherwise a client role profile is created;
a failing write is caught, logged and leaves the store unchanged. -/
def signInWithGoogleProfileTask (users : List UserDocument) (u : AuthUser)
    (now : Nat) (setDocFails : Bool) : List UserDocument :=
  if userExists users u.uid then users
  else (createUserProfile users (googleUserProfileInput u) now setDocFails).2

/-- Shared auth context state: the observed user, the loading flag and
the resolved role, from types/auth.ts (AuthState). -/
structure AuthState where
  user : Option AuthUser := none
  loading : Bool := true
  role : Option UserRole := none
deriving DecidableEq, Repr

/-- Embedding of the AuthProvider placeholder signInEmail, which always
throws the use the dedicated hook error. -/
def signInEmail (_st : AuthState) (_email _password : String) : Except String Unit :=
  .error "signInEmail should be called from useSignIn hook"

/-- Embedding of the AuthProvider placeholder signUpEmail, which always
throws the use the dedicated hook error. -/
def signUpEmail (_st : AuthState) (_email _password _displayName : String)
    (_role : UserRole) : Except String Unit :=
  .error "signUpEmail should be called from useSignUp hook"

/-- Embedding of the AuthProvider placeholder signInGoogle, which always
throws the use the dedicated hook error. -/
def signInGoogle (_st : AuthState) : Except String Unit :=
  .error "signInGoogle should be called from useSignInWithGoogle hook"

/-- Firebase options read from the six environment variables; a missing
variable is none, and the validator also treats an empty string as
missing through JavaScript truthiness. -/
structure FirebaseConfig where
  apiKey : Option String := none
  authDomain : Option String := none
  projectId : Option String := none
  storageBucket : Option String := none
  messagingSenderId : Option String := none
  appId : Option String := none
deriving DecidableEq, Repr

/-- Falsiness of one configuration value: absent or empty. -/
def configValueMissing (v : Option String) : Bool :=
  match v with
  | some s => s = ""
  | none => true

/-- The six required configuration keys in the order the validator
checks them. -/
def requiredConfigKeys : List String :=
  ["apiKey", "authDomain", "projectId", "storageBucket", "messagingSenderId", "appId"]

/-- Value of a configuration key by name. -/
def configValue (c : FirebaseConfig) (key : String) : Option String :=
  if key = "apiKey" then c.apiKey
  else if key = "authDomain" then c.authDomain
  else if key = "projectId" then c.projectId
  else if key = "storageBucket" then c.storageBucket
  else if key = "messagingSenderId" then c.messagingSenderId
  else if key = "appId" then c.appId
  else none

/-- Names of the required keys whose values are missing, in check
order. -/
def missingConfigKeys (c : FirebaseConfig) : List String :=
  requiredConfigKeys.filter (fun key => configValueMissing (configValue c key))

/-- Embedding of validateFirebaseConfig: succeed when nothing is
missing, otherwise throw the error enumerating the missing names. -/
def validateFirebaseConfig (c : FirebaseConfig) : Except String Unit :=
  if missingConfigKeys c = [] then .ok ()
  else
    .error ("Missing required Firebase configuration: "
      ++ String.intercalate ", " (missingConfigKeys c)
      ++ ". Please check your .env.local file and ensure all NEXT_PUBLIC_FIREBASE_* variables are set.")

/-! Helper lemmas shared by the claim theorems. -/

theorem signUpProfileInput_uid_eq (u : AuthUser) (role : UserRole) (displayName : String) :
    (signUpProfileInput u role displayName).uid = u.uid := rfl

theorem signUpPractitionerInput_uid_eq (u : AuthUser) (displayName : String) :
    (signUpPractitionerInput u displayName).uid = u.uid := rfl

theorem mkUserDocument_uid_eq (input : CreateUserProfileInput) (now : Nat) :
    (mkUserDocument input now).uid = input.uid := rfl

theorem mkPractitionerDocument_uid_eq (input : CreatePractitionerProfileInput) (now : Nat) :
    (mkPractitionerDocument input now).uid = input.uid := rfl

/-- C7: Calling any of the three unimplemented context operations (email
sign-in, email sign-up, Google sign-in) on the shared auth context always
fails with the explicit error directing the caller to the dedicated
per-action hook, for all arguments and in every auth state. -/
theorem authContext_placeholders_always_throw :
    ∀ (st : AuthState) (email password displayName : String) (role : UserRole),
      signInEmail st email password =
        .error "signInEmail should be called from useSignIn hook"
      ∧ signUpEmail st email password displayName role =
        .error "signUpEmail should be called from useSignUp hook"
      ∧ signInGoogle st =
        .error "signInGoogle should be called from useSignInWithGoogle hook" := by
  intro st email password displayName role
  exact ⟨rfl, rfl, rfl⟩

/-- C6: A sign-in attempt that fails because the password is wrong (the
identity provider rejects the credential with the code
auth/invalid-credential, the code the repository test suite gives the
wrong-password scenario) stores and toasts exactly the message
Invalid email or password., returns loading to false and performs no
redirect. -/
theorem signIn_wrong_password_outcome (e : AuthError) (redirectParam : Option String)
    (userFetch : Except String (Option UserDocument))
    (hcode : e.code = some "auth/invalid-credential") :
    signIn (.error e) redirectParam userFetch =
      { error := some "Invalid email or password."
        loading := false
        toasts := [Toast.error "Invalid email or password."]
        pushes := [] } := by
  simp [signIn, signInErrorMessage, hcode]

/-- Witness for C6 at a concrete failed attempt. -/
theorem signIn_wrong_password_outcome_witness :
    signIn (.error { code := some "auth/invalid-credential", message := some "bad" }) none
        (.ok none) =
      { error := some "Invalid email or password."
        loading := false
        toasts := [Toast.error "Invalid email or password."]
        pushes := [] } :=
  signIn_wrong_password_outcome
    { code := some "auth/invalid-credential", message := some "bad" } none (.ok none) rfl

/-- C4: Creating a User profile, and likewise a Practitioner profile, for
a key that already holds a document fails with the already-exists error
and leaves the stored collection, in particular the stored document,
unchanged. -/
theorem createProfile_existing_key_fails_without_mutation
    (users : List UserDocument) (input : CreateUserProfileInput) (now : Nat)
    (setDocFails : Bool) (d : UserDocument)
    (hd : findUserDoc users input.uid = some d)
    (practitioners : List PractitionerDocument) (pinput : CreatePractitionerProfileInput)
    (pnow : Nat) (psetDocFails : Bool) (pd : PractitionerDocument)
    (hpd : findPractitionerDoc practitioners pinput.uid = some pd) :
    createUserProfile users input now setDocFails =
      (.error ("User profile already exists for UID: " ++ input.uid), users)
    ∧ findUserDoc (createUserProfile users input now setDocFails).2 input.uid = some d
    ∧ createPractitionerProfile practitioners pinput pnow psetDocFails =
      (.error ("Practitioner profile already exists for UID: " ++ pinput.uid), practitioners)
    ∧ findPractitionerDoc (createPractitionerProfile practitioners pinput pnow psetDocFails).2
        pinput.uid = some pd := by
  refine ⟨?_, ?_, ?_, ?_⟩
  · simp [createUserProfile, hd]
  · simp [createUserProfile, hd]
  · simp [createPractitionerProfile, hpd]
  · simp [createPractitionerProfile, hpd]

/-- Witness for C4 at concrete one-document collections. -/
theorem createProfile_existing_key_fails_without_mutation_witness :
    createUserProfile
        [{ uid := "u1", email := "a@x.com", role := .client, displayName := none,
           photoURL := none, createdAt := 1, updatedAt := 1, emailVerified := false,
           phoneNumber := none, bio := none }]
        { uid := "u1", email := "b@x.com", role := .practitioner } 9 false =
      (.error ("User profile already exists for UID: " ++ "u1"),
        [{ uid := "u1", email := "a@x.com", role := .client, displayName := none,
           photoURL := none, createdAt := 1, updatedAt := 1, emailVerified := false,
           phoneNumber := none, bio := none }]) :=
  (createProfile_existing_key_fails_without_mutation
    [{ uid := "u1", email := "a@x.com", role := .client, displayName := none,
       photoURL := none, createdAt := 1, updatedAt := 1, emailVerified := false,
       phoneNumber := none, bio := none }]
    { uid := "u1", email := "b@x.com", role := .practitioner } 9 false
    { uid := "u1", email := "a@x.com", role := .client, displayName := none,
      photoURL := none, createdAt := 1, updatedAt := 1, emailVerified := false,
      phoneNumber := none, bio := none } (by decide)
    [mkPractitionerDocument { uid := "p1", email := "p@x.com", displayName := "P" } 1]
    { uid := "p1", email := "q@x.com", displayName := "Q" } 9 false
    (mkPractitionerDocument { uid := "p1", email := "p@x.com", displayName := "P" } 1)
    (by decide)).1

/-- C10: The Google sign-in background profile branch creates a User
document (with the client role) only when none exists for the uid; when
a document already exists the flow performs no write, so the stored
document and in particular its role are unchanged. -/
theorem signInWithGoogle_profile_only_when_absent
    (users : List UserDocument) (u : AuthUser) (now : Nat) (setDocFails : Bool) :
    (∀ d, findUserDoc users u.uid = some d →
      signInWithGoogleProfileTask users u now setDocFails = users
      ∧ findUserDoc (signInWithGoogleProfileTask users u now setDocFails) u.uid = some d)
    ∧ (findUserDoc users u.uid = none → setDocFails = false →
      signInWithGoogleProfileTask users u now setDocFails =
        mkUserDocument (googleUserProfileInput u) now :: users
      ∧ (mkUserDocument (googleUserProfileInput u) now).role = .client
      ∧ (mkUserDocument (googleUserProfileInput u) now).uid = u.uid) := by
  constructor
  · intro d hd
    have hex : userExists users u.uid = true := by
      simp [userExists, hd]
    constructor
    · simp [signInWithGoogleProfileTask, hex]
    · simp [signInWithGoogleProfileTask, hex, hd]
  · intro h0 hsf
    have hfind : findUserDoc users (googleUserProfileInput u).uid = none := h0
    have hex : userExists users u.uid = false := by
      simp [userExists, h0]
    subst hsf
    refine ⟨?_, rfl, rfl⟩
    simp [signInWithGoogleProfileTask, hex, createUserProfile, hfind]

/-- C2: cancelAppointment is exactly the status-update alias of
updateAppointment with the cancelled status, the server cancellation
timestamp and the cancelling actor; on a stored non-cancelled
appointment it transitions the status to cancelled, records the actor
and the timestamp, stamps updatedAt and changes no identity or time
field, and on an already-cancelled appointment it is that same generic
update. -/
theorem cancelAppointment_is_status_update_alias
    (appointments : List AppointmentDocument) (appointmentId : String)
    (actor : CancelActor) (now : Nat) (d : AppointmentDocument)
    (hd : findAppointmentDoc appointments appointmentId = some d)
    (hnc : d.status ≠ .cancelled) :
    (∀ (l : List AppointmentDocument) (i : String),
      cancelAppointment l i actor now =
        updateAppointment l i
          { status := some .cancelled
            cancelledAt := some (some now)
            cancelledBy := some (some actor) } now)
    ∧ (cancelAppointment appointments appointmentId actor now).1 =
        .ok (applyAppointmentUpdate d
          { status := some .cancelled
            cancelledAt := some (some now)
            cancelledBy := some (some actor) } now)
    ∧ (applyAppointmentUpdate d
        { status := some .cancelled
          cancelledAt := some (some now)
          cancelledBy := some (some actor) } now).status = .cancelled
    ∧ (applyAppointmentUpdate d
        { status := some .cancelled
          cancelledAt := some (some now)
          cancelledBy := some (some actor) } now).cancelledBy = some actor
    ∧ (applyAppointmentUpdate d
        { status := some .cancelled
          cancelledAt := some (some now)
          cancelledBy := some (some actor) } now).cancelledAt = some now
    ∧ (applyAppointmentUpdate d
        { status := some .cancelled
          cancelledAt := some (some now)
          cancelledBy := some (some actor) } now).updatedAt = now
    ∧ (applyAppointmentUpdate d
        { status := some .cancelled
          cancelledAt := some (some now)
          cancelledBy := some (some actor) } now).clientId = d.clientId
    ∧ (applyAppointmentUpdate d
        { status := some .cancelled
          cancelledAt := some (some now)
          cancelledBy := some (some actor) } now).practitionerId = d.practitionerId
    ∧ (applyAppointmentUpdate d
        { status := some .cancelled
          cancelledAt := some (some now)
          cancelledBy := some (some actor) } now).startTime = d.startTime := by
  refine ⟨fun l i => rfl, ?_, rfl, rfl, rfl, rfl, rfl, rfl, rfl⟩
  simp [cancelAppointment, updateAppointment, hd]

/-- Witness for C2 at a concrete pending appointment. -/
theorem cancelAppointment_is_status_update_alias_witness :
    (cancelAppointment
        [{ id := "a1", clientId := "c1", practitionerId := "p1", startTime := 10,
           endTime := 11, status := .pending, createdAt := 1, updatedAt := 1 }]
        "a1" .client 5).1 =
      .ok (applyAppointmentUpdate
        { id := "a1", clientId := "c1", practitionerId := "p1", startTime := 10,
          endTime := 11, status := .pending, createdAt := 1, updatedAt := 1 }
        { status := some .cancelled
          cancelledAt := some (some 5)
          cancelledBy := some (some .client) } 5) :=
  (cancelAppointment_is_status_update_alias
    [{ id := "a1", clientId := "c1", practitionerId := "p1", startTime := 10,
       endTime := 11, status := .pending, createdAt := 1, updatedAt := 1 }]
    "a1" .client 5
    { id := "a1", clientId := "c1", practitionerId := "p1", startTime := 10,
      endTime := 11, status := .pending, createdAt := 1, updatedAt := 1 }
    (by decide) (by decide)).2.1

/-! Query pipeline lemmas shared by the listing and subscription
claims. -/

theorem insertionSort_appointmentOrder_pairwise (l : List AppointmentDocument) :
    (l.insertionSort appointmentOrder).Pairwise (fun a b => a.startTime ≤ b.startTime) := by
  refine (List.sorted_insertionSort appointmentOrder l).imp ?_
  intro a b hab
  rcases hab with h1 | ⟨h1, _⟩
  · exact Nat.le_of_lt h1
  · exact Nat.le_of_eq h1

theorem matchesAppointmentFilters_cursor_free (o : ListAppointmentsOptions) :
    matchesAppointmentFilters { o with startAfterDocId := none } =
      matchesAppointmentFilters o := rfl

theorem matchesPractitionerFilters_cursor_free (o : ListPractitionersOptions) :
    matchesPractitionerFilters { o with startAfter := none } =
      matchesPractitionerFilters o := rfl

theorem capResults_sublist {α : Type} (limitOpt : Option Nat) (defaultCap : Nat)
    (l : List α) : (capResults limitOpt defaultCap l).Sublist l := by
  rcases limitOpt with _ | n
  · exact List.take_sublist _ _
  · simp only [capResults]
    by_cases hn : n = 0
    · rw [if_neg (show ¬n ≠ 0 from fun h2 => h2 hn)]
      exact List.take_sublist _ _
    · rw [if_pos hn]
      exact List.take_sublist _ _

theorem capResults_length_requested {α : Type} (n : Nat) (defaultCap : Nat) (l : List α)
    (hn : n ≠ 0) : (capResults (some n) defaultCap l).length ≤ n := by
  simp only [capResults, if_pos hn]
  rw [List.length_take]
  exact min_le_left _ _

theorem capResults_length_default {α : Type} (defaultCap : Nat) (l : List α) :
    (capResults none defaultCap l).length ≤ defaultCap := by
  simp only [capResults]
  rw [List.length_take]
  exact min_le_left _ _

theorem appointmentCursorPage_sublist (appointments : List AppointmentDocument)
    (cursorOpt : Option String) (sorted : List AppointmentDocument) :
    (appointmentCursorPage appointments cursorOpt sorted).Sublist sorted := by
  rcases cursorOpt with _ | cid
  · exact List.Sublist.refl _
  · simp only [appointmentCursorPage]
    rcases hf : findAppointmentDoc appointments cid with _ | cursor
    · exact List.Sublist.refl _
    · exact List.filter_sublist _

theorem practitionerCursorPage_sublist (practitioners : List PractitionerDocument)
    (cursorOpt : Option String) (sorted : List PractitionerDocument) :
    (practitionerCursorPage practitioners cursorOpt sorted).Sublist sorted := by
  rcases cursorOpt with _ | cid
  · exact List.Sublist.refl _
  · simp only [practitionerCursorPage]
    rcases hf : findPractitionerDoc practitioners cid with _ | cursor
    · exact List.Sublist.refl _
    · exact List.filter_sublist _

theorem listAppointments_subset_filter (appointments : List AppointmentDocument)
    (o : ListAppointmentsOptions) :
    listAppointments appointments o ⊆ appointments.filter (matchesAppointmentFilters o) := by
  intro a ha
  simp only [listAppointments] at ha
  have h1 := (capResults_sublist o.limit 100 _).subset ha
  have h2 := (appointmentCursorPage_sublist appointments o.startAfterDocId _).subset h1
  exact (List.perm_insertionSort _ _).mem_iff.mp h2

theorem listAppointments_pairwise_startTime (appointments : List AppointmentDocument)
    (o : ListAppointmentsOptions) :
    (listAppointments appointments o).Pairwise (fun a b => a.startTime ≤ b.startTime) := by
  simp only [listAppointments]
  have base := insertionSort_appointmentOrder_pairwise
    (appointments.filter (matchesAppointmentFilters o))
  exact List.Pairwise.sublist
    ((capResults_sublist o.limit 100 _).trans
      (appointmentCursorPage_sublist appointments o.startAfterDocId _)) base

theorem listAppointments_length_cap (appointments : List AppointmentDocument)
    (o : ListAppointmentsOptions) :
    (∀ n, o.limit = some n → n ≠ 0 → (listAppointments appointments o).length ≤ n)
    ∧ (o.limit = none → (listAppointments appointments o).length ≤ 100) := by
  constructor
  · intro n hlim hn
    simp only [listAppointments, hlim]
    exact capResults_length_requested n 100 _ hn
  · intro hlim
    simp only [listAppointments, hlim]
    exact capResults_length_default 100 _

theorem listPractitioners_length_default_cap (practitioners : List PractitionerDocument)
    (po : ListPractitionersOptions) (h : po.limit = none) :
    (listPractitioners practitioners po).length ≤ 50 := by
  simp only [listPractitioners, h]
  exact capResults_length_default 50 _

/-- C9: A pagination cursor naming a document that does not exist is
silently ignored by listAppointments and by listPractitioners: the call
returns exactly what the same call without a cursor returns, from the
beginning of the ordered set. -/
theorem list_missing_cursor_ignored
    (appointments : List AppointmentDocument) (o : ListAppointmentsOptions) (cid : String)
    (hc : o.startAfterDocId = some cid)
    (hmiss : findAppointmentDoc appointments cid = none)
    (practitioners : List PractitionerDocument) (po : ListPractitionersOptions) (pcid : String)
    (hpc : po.startAfter = some pcid)
    (hpmiss : findPractitionerDoc practitioners pcid = none) :
    listAppointments appointments o =
      listAppointments appointments { o with startAfterDocId := none }
    ∧ listPractitioners practitioners po =
      listPractitioners practitioners { po with startAfter := none } := by
  constructor
  · simp [listAppointments, appointmentCursorPage, matchesAppointmentFilters_cursor_free, hc,
      hmiss]
  · simp [listPractitioners, practitionerCursorPage, matchesPractitionerFilters_cursor_free, hpc,
      hpmiss]

/-- Witness for C9 at concrete stores without the cursor documents. -/
theorem list_missing_cursor_ignored_witness :
    listAppointments
        [{ id := "a1", clientId := "c1", practitionerId := "p1", startTime := 10,
           endTime := 11, status := .pending, createdAt := 1, updatedAt := 1 }]
        { startAfterDocId := some "ghost" } =
      listAppointments
        [{ id := "a1", clientId := "c1", practitionerId := "p1", startTime := 10,
           endTime := 11, status := .pending, createdAt := 1, updatedAt := 1 }]
        { startAfterDocId := none } :=
  (list_missing_cursor_ignored
    [{ id := "a1", clientId := "c1", practitionerId := "p1", startTime := 10,
       endTime := 11, status := .pending, createdAt := 1, updatedAt := 1 }]
    { startAfterDocId := some "ghost" } "ghost" rfl (by decide)
    [] { startAfter := some "ghost" } "ghost" rfl (by decide)).1

/-- C5: Each underlying notification of a realtime appointment
subscription invokes the callback exactly once; a snapshot notification
delivers the complete recomputed filtered and ordered result set (the
same set the one-shot cursor-free listing computes), and an error
notification delivers the empty result set. -/
theorem subscribeToAppointments_callback_payloads
    (o : ListAppointmentsOptions) (events : List SnapshotEvent) :
    (subscriptionCallbackTrace o events).length = events.length
    ∧ (∀ docs, subscribeToAppointments o (.snapshot docs) =
        listAppointments docs { o with startAfterDocId := none })
    ∧ (∀ docs a, a ∈ subscribeToAppointments o (.snapshot docs) →
        matchesAppointmentFilters o a = true)
    ∧ (∀ docs, (subscribeToAppointments o (.snapshot docs)).Pairwise
        (fun a b => a.startTime ≤ b.startTime))
    ∧ (∀ msg, subscribeToAppointments o (.failure msg) = []) := by
  have hpayload : ∀ docs, subscribeToAppointments o (.snapshot docs) =
      listAppointments docs { o with startAfterDocId := none } := by
    intro docs
    simp [subscribeToAppointments, listAppointments, appointmentCursorPage,
      matchesAppointmentFilters_cursor_free]
  refine ⟨List.length_map _ _, hpayload, ?_, ?_, fun msg => rfl⟩
  · intro docs a ha
    rw [hpayload] at ha
    have hm := List.of_mem_filter (listAppointments_subset_filter docs _ ha)
    simpa [matchesAppointmentFilters] using hm
  · intro docs
    rw [hpayload]
    exact listAppointments_pairwise_startTime docs _

/-- C3 counterexample: as frozen, the claim fails on JavaScript
truthiness. A present but empty practitionerId filter adds no where
clause, so a returned document need not match it, and a requested limit
of 0 is falsy, so the default cap of 100 applies and the result count
exceeds the requested limit. -/
theorem listAppointments_filters_caps_counterexample :
    (∃ a ∈ listAppointments
        [{ id := "a1", clientId := "c1", practitionerId := "p1", startTime := 1,
           endTime := 2, status := .pending, createdAt := 0, updatedAt := 0 }]
        { practitionerId := some "", status := some .pending },
      a.practitionerId ≠ "")
    ∧ (listAppointments
        [{ id := "a1", clientId := "c1", practitionerId := "p1", startTime := 1,
           endTime := 2, status := .pending, createdAt := 0, updatedAt := 0 }]
        { practitionerId := some "p1", status := some .pending,
          limit := some 0 }).length = 1 := by
  decide

/-- C3 (amended): for every listAppointments call with a non-empty
practitionerId filter and a status filter, every returned document
matches both filters, the results are ordered ascending by start time,
and the result count is at most a non-zero requested limit and at most
the implicit default of 100 when no limit is given; listPractitioners
applies an implicit default cap of 50 when no limit is given. -/
theorem listAppointments_filters_order_caps
    (appointments : List AppointmentDocument) (o : ListAppointmentsOptions)
    (p : String) (s : AppointmentStatus)
    (hp : o.practitionerId = some p) (hpne : p ≠ "") (hs : o.status = some s) :
    (∀ a ∈ listAppointments appointments o, a.practitionerId = p ∧ a.status = s)
    ∧ (listAppointments appointments o).Pairwise (fun a b => a.startTime ≤ b.startTime)
    ∧ (∀ n, o.limit = some n → n ≠ 0 → (listAppointments appointments o).length ≤ n)
    ∧ (o.limit = none → (listAppointments appointments o).length ≤ 100)
    ∧ (∀ (practitioners : List PractitionerDocument) (po : ListPractitionersOptions),
        po.limit = none → (listPractitioners practitioners po).length ≤ 50) := by
  refine ⟨?_, listAppointments_pairwise_startTime appointments o,
    (listAppointments_length_cap appointments o).1,
    (listAppointments_length_cap appointments o).2,
    fun practitioners po hpo => listPractitioners_length_default_cap practitioners po hpo⟩
  intro a ha
  have hm := List.of_mem_filter (listAppointments_subset_filter appointments o ha)
  simp only [matchesAppointmentFilters, hp, hs, hpne, if_false, Bool.and_eq_true,
    beq_iff_eq] at hm
  exact ⟨hm.1.1.1.1, hm.1.1.2⟩

/-- Witness for C3 at a concrete store and options. -/
theorem listAppointments_filters_order_caps_witness :
    (listAppointments
        [{ id := "a1", clientId := "c1", practitionerId := "p1", startTime := 1,
           endTime := 2, status := .pending, createdAt := 0, updatedAt := 0 }]
        { practitionerId := some "p1", status := some .pending }).length ≤ 100 :=
  (listAppointments_filters_order_caps
    [{ id := "a1", clientId := "c1", practitionerId := "p1", startTime := 1,
       endTime := 2, status := .pending, createdAt := 0, updatedAt := 0 }]
    { practitionerId := some "p1", status := some .pending } "p1" .pending rfl
    (by decide) rfl).2.2.2.1 rfl

/-! Configuration validator lemmas. -/

theorem configValue_apiKey (c : FirebaseConfig) : configValue c "apiKey" = c.apiKey := rfl

theorem configValue_authDomain (c : FirebaseConfig) :
    configValue c "authDomain" = c.authDomain := rfl

theorem configValue_projectId (c : FirebaseConfig) :
    configValue c "projectId" = c.projectId := rfl

theorem configValue_storageBucket (c : FirebaseConfig) :
    configValue c "storageBucket" = c.storageBucket := rfl

theorem configValue_messagingSenderId (c : FirebaseConfig) :
    configValue c "messagingSenderId" = c.messagingSenderId := rfl

theorem configValue_appId (c : FirebaseConfig) : configValue c "appId" = c.appId := rfl

theorem missingConfigKeys_nil_iff (c : FirebaseConfig) :
    missingConfigKeys c = [] ↔
      (configValueMissing c.apiKey = false ∧ configValueMissing c.authDomain = false ∧
       configValueMissing c.projectId = false ∧ configValueMissing c.storageBucket = false ∧
       configValueMissing c.messagingSenderId = false ∧
       configValueMissing c.appId = false) := by
  simp [missingConfigKeys, requiredConfigKeys, List.filter_eq_nil_iff, configValue_apiKey,
    configValue_authDomain, configValue_projectId, configValue_storageBucket,
    configValue_messagingSenderId, configValue_appId]

/-- C8: validateFirebaseConfig fails if and only if at least one of the
six required configuration values (API key, auth domain, project id,
storage bucket, sender id, app id) is absent or empty, and the error
message enumerates exactly the names of the missing keys in check
order. -/
theorem validateFirebaseConfig_requires_all_six (c : FirebaseConfig) :
    ((validateFirebaseConfig c).isOk = false ↔
      (configValueMissing c.apiKey = true ∨ configValueMissing c.authDomain = true ∨
       configValueMissing c.projectId = true ∨ configValueMissing c.storageBucket = true ∨
       configValueMissing c.messagingSenderId = true ∨ configValueMissing c.appId = true))
    ∧ (∀ m, validateFirebaseConfig c = .error m →
        m = "Missing required Firebase configuration: "
          ++ String.intercalate ", " (missingConfigKeys c)
          ++ ". Please check your .env.local file and ensure all NEXT_PUBLIC_FIREBASE_* variables are set.")
    ∧ (∀ k, k ∈ missingConfigKeys c ↔
        k ∈ requiredConfigKeys ∧ configValueMissing (configValue c k) = true) := by
  refine ⟨?_, ?_, fun k => List.mem_filter⟩
  · by_cases h : missingConfigKeys c = []
    · have hall := (missingConfigKeys_nil_iff c).mp h
      simp [validateFirebaseConfig, h, Except.isOk, Except.toBool, hall.1, hall.2.1,
        hall.2.2.1, hall.2.2.2.1, hall.2.2.2.2.1, hall.2.2.2.2.2]
    · have hne : ¬(configValueMissing c.apiKey = false ∧
          configValueMissing c.authDomain = false ∧
          configValueMissing c.projectId = false ∧
          configValueMissing c.storageBucket = false ∧
          configValueMissing c.messagingSenderId = false ∧
          configValueMissing c.appId = false) :=
        fun hall => h ((missingConfigKeys_nil_iff c).mpr hall)
      have hdisj : configValueMissing c.apiKey = true ∨
          configValueMissing c.authDomain = true ∨
          configValueMissing c.projectId = true ∨
          configValueMissing c.storageBucket = true ∨
          configValueMissing c.messagingSenderId = true ∨
          configValueMissing c.appId = true := by
        by_contra hno
        push_neg at hno
        simp only [Bool.not_eq_true] at hno
        exact hne ⟨hno.1, hno.2.1, hno.2.2.1, hno.2.2.2.1, hno.2.2.2.2.1, hno.2.2.2.2.2⟩
      have hfail : (validateFirebaseConfig c).isOk = false := by
        simp [validateFirebaseConfig, h, Except.isOk, Except.toBool]
      exact ⟨fun _ => hdisj, fun _ => hfail⟩
  · intro m hm
    by_cases h : missingConfigKeys c = []
    · simp [validateFirebaseConfig, h] at hm
    · simp only [validateFirebaseConfig, if_neg h] at hm
      exact (Except.error.injEq _ _).mp hm.symm

/-- C1: For a sign-up call whose identity credential is created and
whose user profile write goes through against a fresh key, exactly one
User document is created, keyed by the auth uid; with role practitioner
and a successful practitioner write against a fresh key, exactly one
Practitioner document is created under the same uid; a practitioner
profile failure is isolated, leaving the User document in place, adding
the warning toast and storing no error; and a sign-up with role client
never creates a Practitioner document on any path. -/
theorem signUp_role_profile_creation
    (users : List UserDocument) (practitioners : List PractitionerDocument)
    (env : SignUpEnv) (displayName : String) (role : UserRole) (now : Nat) (u : AuthUser)
    (hcred : env.credential = .ok u)
    (hnew : findUserDoc users u.uid = none)
    (huw : env.userSetDocFails = false) :
    (signUp users practitioners env displayName role now).users =
        mkUserDocument (signUpProfileInput u role displayName) now :: users
    ∧ (mkUserDocument (signUpProfileInput u role displayName) now).uid = u.uid
    ∧ (signUp users practitioners env displayName role now).error = none
    ∧ (role = .practitioner → env.practitionerSetDocFails = false →
        findPractitionerDoc practitioners u.uid = none →
        (signUp users practitioners env displayName role now).practitioners =
          mkPractitionerDocument (signUpPractitionerInput u displayName) now :: practitioners
        ∧ (mkPractitionerDocument (signUpPractitionerInput u displayName) now).uid = u.uid)
    ∧ (role = .practitioner →
        (env.practitionerSetDocFails = true ∨
          (findPractitionerDoc practitioners u.uid).isSome = true) →
        (signUp users practitioners env displayName role now).practitioners = practitioners
        ∧ practitionerSetupWarning ∈ (signUp users practitioners env displayName role now).toasts
        ∧ findUserDoc (signUp users practitioners env displayName role now).users u.uid =
            some (mkUserDocument (signUpProfileInput u role displayName) now))
    ∧ (∀ (users2 : List UserDocument) (practitioners2 : List PractitionerDocument)
        (env2 : SignUpEnv) (displayName2 : String) (now2 : Nat),
        (signUp users2 practitioners2 env2 displayName2 .client now2).practitioners =
          practitioners2) := by
  have hinput : findUserDoc users (signUpProfileInput u role displayName).uid = none := hnew
  have hcreate : createUserProfile users (signUpProfileInput u role displayName) now
      env.userSetDocFails =
      (.ok (mkUserDocument (signUpProfileInput u role displayName) now),
        mkUserDocument (signUpProfileInput u role displayName) now :: users) := by
    rw [huw]
    simp [createUserProfile, hinput]
  have clientNoPract : ∀ (users2 : List UserDocument)
      (practitioners2 : List PractitionerDocument) (env2 : SignUpEnv)
      (displayName2 : String) (now2 : Nat),
      (signUp users2 practitioners2 env2 displayName2 .client now2).practitioners =
        practitioners2 := by
    intro users2 practitioners2 env2 displayName2 now2
    rcases hc2 : env2.credential with e | u2
    · simp [signUp, hc2]
    · simp only [signUp, hc2]
      rcases hcr : createUserProfile users2 (signUpProfileInput u2 .client displayName2) now2
          env2.userSetDocFails with ⟨res, users2p⟩
      rcases res with err | okd
      · simp [hcr, finishSignUp]
      · simp [hcr, finishSignUp]
  have hfindCons : findUserDoc
      (mkUserDocument (signUpProfileInput u role displayName) now :: users) u.uid =
      some (mkUserDocument (signUpProfileInput u role displayName) now) := by
    have hbeq : ((mkUserDocument (signUpProfileInput u role displayName) now).uid == u.uid)
        = true := by
      simp [mkUserDocument_uid_eq, signUpProfileInput_uid_eq]
    simp [findUserDoc, List.find?, hbeq]
  rcases role with _ | _
  · -- client role
    have hr : signUp users practitioners env displayName .client now =
        finishSignUp (mkUserDocument (signUpProfileInput u .client displayName) now :: users)
          practitioners [] env := by
      simp only [signUp, hcred, hcreate]
    refine ⟨?_, rfl, ?_, ?_, ?_, clientNoPract⟩
    · rw [hr]
      exact rfl
    · rw [hr]
      exact rfl
    · intro hrole
      exact absurd hrole (by simp)
    · intro hrole
      exact absurd hrole (by simp)
  · -- practitioner role
    have hr : signUp users practitioners env displayName .practitioner now =
        (match createPractitionerProfile practitioners (signUpPractitionerInput u displayName)
            now env.practitionerSetDocFails with
        | (.error _, practitioners2) =>
          finishSignUp
            (mkUserDocument (signUpProfileInput u .practitioner displayName) now :: users)
            practitioners2 [practitionerSetupWarning] env
        | (.ok _, practitioners2) =>
          finishSignUp
            (mkUserDocument (signUpProfileInput u .practitioner displayName) now :: users)
            practitioners2 [] env) := by
      simp only [signUp, hcred, hcreate]
    refine ⟨?_, rfl, ?_, ?_, ?_, clientNoPract⟩
    · rcases hres : createPractitionerProfile practitioners
          (signUpPractitionerInput u displayName) now env.practitionerSetDocFails
          with ⟨res, practitioners2⟩
      rcases res with err | okd
      · rw [hr, hres]
        exact rfl
      · rw [hr, hres]
        exact rfl
    · rcases hres : createPractitionerProfile practitioners
          (signUpPractitionerInput u displayName) now env.practitionerSetDocFails
          with ⟨res, practitioners2⟩
      rcases res with err | okd
      · rw [hr, hres]
        exact rfl
      · rw [hr, hres]
        exact rfl
    · intro _ hpf hnone
      have hok : createPractitionerProfile practitioners (signUpPractitionerInput u displayName)
          now env.practitionerSetDocFails =
          (.ok (mkPractitionerDocument (signUpPractitionerInput u displayName) now),
            mkPractitionerDocument (signUpPractitionerInput u displayName) now
              :: practitioners) := by
        rw [hpf]
        simp [createPractitionerProfile,
          show findPractitionerDoc practitioners (signUpPractitionerInput u displayName).uid
            = none from hnone]
      refine ⟨?_, rfl⟩
      rw [hr, hok]
      exact rfl
    · intro _ hfail
      have hkey : ∃ msg, createPractitionerProfile practitioners
          (signUpPractitionerInput u displayName) now env.practitionerSetDocFails =
          (.error msg, practitioners) := by
        rcases hfp : findPractitionerDoc practitioners u.uid with _ | pd
        · rcases hfail with hpf | hsome
          · refine ⟨"setDoc failed", ?_⟩
            rw [hpf]
            simp [createPractitionerProfile,
              show findPractitionerDoc practitioners
                (signUpPractitionerInput u displayName).uid = none from hfp]
          · rw [hfp] at hsome
            simp at hsome
        · refine ⟨"Practitioner profile already exists for UID: "
            ++ (signUpPractitionerInput u displayName).uid, ?_⟩
          simp [createPractitionerProfile,
            show findPractitionerDoc practitioners
              (signUpPractitionerInput u displayName).uid = some pd from hfp]
      obtain ⟨msg, hkey⟩ := hkey
      rw [hr, hkey]
      refine ⟨rfl, ?_, hfindCons⟩
      simp [finishSignUp]

/-- Witness for C1 at a concrete practitioner sign-up against empty
stores. -/
theorem signUp_role_profile_creation_witness :
    (signUp [] [] { credential := .ok { uid := "u1", email := "a@x.com" } }
        "A" .practitioner 7).users =
      mkUserDocument
        (signUpProfileInput { uid := "u1", email := "a@x.com" } .practitioner "A") 7 :: [] :=
  (signUp_role_profile_creation [] [] { credential := .ok { uid := "u1", email := "a@x.com" } }
    "A" .practitioner 7 { uid := "u1", email := "a@x.com" } rfl rfl rfl).1

end HolisticConnect
